import Mathlib

/-!
Shallow embedding of `src/jawadb.py`: a file-backed JSON document store with
mutation tracking (`_JsonDict`, `_JsonList`), a dirty flag on the `Database`
object, and an atomic write-temp-then-replace save protocol.

Modelling conventions:
- Python values are `JVal`; a `dict`/`list` node carries a `tracked` flag that
  is `true` exactly for the `_JsonDict`/`_JsonList` subclasses and `false` for
  raw `dict`/`list` objects.
- The `Database` object is `DB` (`root` = `_inner_container`, `none` meaning
  uninitialized; `modified` = `_modified`).
- Python references to containers inside the tree are modelled as access paths
  from the root (`Step`); mutating through such a reference rewrites the tree
  at that path and consults the `tracked` flag of the node found there, exactly
  as the Python object found there would or would not notify the database.
- Raised exceptions are modelled as an `Option PyErr` component of the result,
  the pre-call object state being returned unchanged alongside it.
- The filesystem seen by `save` is the pair of contents at `path` and at
  `path + ".tmp"`; `json.dump(obj, f, indent=2)` is modelled by `serVal`.
-/

/-- Python dict keys used against the store: strings and (non-string) ints. -/
inductive PyKey where
  | str (s : String)
  | int (n : Int)
deriving DecidableEq

/-- JSON-ish Python values. `tracked = true` marks a `_JsonDict` / `_JsonList`
instance, `tracked = false` a raw `dict` / `list`. -/
inductive JVal where
  | null
  | bool (b : Bool)
  | num (n : Int)
  | str (s : String)
  | dict (tracked : Bool) (entries : List (PyKey × JVal))
  | list (tracked : Bool) (elems : List JVal)

/-- Python exceptions raised by the code paths we model. -/
inductive PyErr where
  | typeError (msg : String)
  | valueError (msg : String)
  | keyError
  | indexError
deriving DecidableEq

/-- True for `dict` and `list` values (tracked or raw), i.e. the values for
which `isinstance(value, dict)` or `isinstance(value, list)` holds. -/
def isContainer : JVal → Bool
  | .dict _ _ => true
  | .list _ _ => true
  | _ => false

mutual
/-- The body of the `for i, value in enumerate(self)` loop in
`_JsonList.__init__` (src/jawadb.py:89-93): a dict element is replaced by
`_JsonDict(parent_db, value)` (which copies the entries WITHOUT wrapping its
children), a list element by `_JsonList(parent_db, value)` (recursive), and
any other element is left alone. -/
def listInitElem : JVal → JVal
  | .dict _ es => .dict true es
  | .list _ zs => .list true (listInitElems zs)
  | v => v

/-- `_JsonList.__init__` applied to all elements of the underlying list. -/
def listInitElems : List JVal → List JVal
  | [] => []
  | x :: xs => listInitElem x :: listInitElems xs
end

/-- Whether the `_JsonList.__init__` loop performs at least one
`self[i] = ...` assignment — each such assignment goes through
`_JsonList.__setitem__`, which calls `_parent_db._mark_modified()`.
It fires exactly for the elements that are dicts or lists. -/
def listInitMarks (xs : List JVal) : Bool := xs.any isContainer

/-- `_JsonContainer._wrap_value` (src/jawadb.py:46-55): a raw dict becomes a
`_JsonDict` (entries copied, children untouched), a raw list becomes a
`_JsonList` (its `__init__` loop converts nested containers), everything else
— including already-tracked containers — passes through unchanged. -/
def wrapValue : JVal → JVal
  | .dict false es => .dict true es
  | .list false xs => .list true (listInitElems xs)
  | v => v

/-- The `Database` object: `root` models `_inner_container` (`none` =
uninitialized), `modified` models `_modified`. -/
structure DB where
  root : Option JVal
  modified : Bool

/-- `Database.__init__` (src/jawadb.py:118-135), given the parsed content of
the file (`none` when the file does not exist). `_modified` starts `false`;
a dict root is wrapped by `_JsonDict(self, data)` (children untouched, no
marking); a list root is wrapped by `_JsonList(self, data)`, whose init loop
converts nested containers and marks the database modified whenever it
performs an item assignment; a scalar root leaves `_inner_container = None`. -/
def dbLoad : Option JVal → DB
  | none => ⟨none, false⟩
  | some (.dict _ es) => ⟨some (.dict true es), false⟩
  | some (.list _ xs) => ⟨some (.list true (listInitElems xs)), listInitMarks xs⟩
  | some _ => ⟨none, false⟩

/-- Message of the `TypeError` Python raises for `None[key] = value`. -/
def noneSetMsg : String := "NoneType object does not support item assignment"

/-- Message raised by `Database._ensure_list` on a dict-rooted database. -/
def dictAsListMsg : String :=
  "This database was initialized as a dictionary and cannot be used as a list"

/-- Message raised by `Database._ensure_dict` on a list-rooted database. -/
def listAsDictMsg : String :=
  "This database was initialized as a list and cannot be used as a dictionary"

/-- Message of the `ValueError` raised by `Database.__getitem__` on an
uninitialized database. -/
def uninitAccessMsg : String := "Could not access uninitialized database"

/-- `Database._ensure_dict` (src/jawadb.py:137-142): materialize an empty
`_JsonDict` when `_inner_container is None` (note: no `_mark_modified` call),
then fail unless the container is a `_JsonDict`. -/
def dbEnsureDict (db : DB) : DB × Option PyErr :=
  match db.root with
  | none => (⟨some (.dict true []), db.modified⟩, none)
  | some (.dict true _) => (db, none)
  | some _ => (db, some (.typeError listAsDictMsg))

/-- `Database._ensure_list` (src/jawadb.py:144-149): materialize an empty
`_JsonList` when `_inner_container is None` (note: no `_mark_modified` call),
then fail unless the container is a `_JsonList`. -/
def dbEnsureList (db : DB) : DB × Option PyErr :=
  match db.root with
  | none => (⟨some (.list true []), db.modified⟩, none)
  | some (.list true _) => (db, none)
  | some _ => (db, some (.typeError dictAsListMsg))

/-- Python `dict` lookup on the ordered entry list. -/
def dictLookup : List (PyKey × JVal) → PyKey → Option JVal
  | [], _ => none
  | (k2, v2) :: es, k => if k2 = k then some v2 else dictLookup es k

/-- Python `dict` item assignment: update in place if the key exists
(preserving insertion order), otherwise append at the end. -/
def dictSet : List (PyKey × JVal) → PyKey → JVal → List (PyKey × JVal)
  | [], k, v => [(k, v)]
  | (k2, v2) :: es, k, v =>
      if k2 = k then (k2, v) :: es else (k2, v2) :: dictSet es k v

/-- Python list index resolution with negative-index support. -/
def pyIndex (len : Nat) (i : Int) : Option Nat :=
  let j : Int := if i < 0 then i + len else i
  if 0 ≤ j ∧ j < len then some j.toNat else none

/-- `Database.__setitem__` (src/jawadb.py:156-157): it delegates directly to
`self._inner_container[key] = value` with NO `_ensure_dict` call, so an
uninitialized database raises `TypeError` (`None` is not subscriptable); a
`_JsonDict` root wraps the value, stores it and marks modified
(src/jawadb.py:64-66); a `_JsonList` root behaves as
`_JsonList.__setitem__` (src/jawadb.py:103-105). -/
def dbSetItem (db : DB) (k : PyKey) (v : JVal) : DB × Option PyErr :=
  match db.root with
  | none => (db, some (.typeError noneSetMsg))
  | some (.dict true es) =>
      (⟨some (.dict true (dictSet es k (wrapValue v))), true⟩, none)
  | some (.dict false es) =>
      (⟨some (.dict false (dictSet es k v)), db.modified⟩, none)
  | some (.list tr xs) =>
      match k with
      | .int i =>
          match pyIndex xs.length i with
          | some n =>
              if tr then (⟨some (.list true (xs.set n (wrapValue v))), true⟩, none)
              else (⟨some (.list false (xs.set n v)), db.modified⟩, none)
          | none => (db, some .indexError)
      | .str _ => (db, some (.typeError "list indices must be integers"))
  | some _ => (db, some (.typeError "object does not support item assignment"))

/-- `Database.__getitem__` (src/jawadb.py:151-154): `ValueError` when
uninitialized, otherwise the plain (untracked, side-effect-free) `dict` /
`list` subscript of the inner container. -/
def dbGetItem (db : DB) (k : PyKey) : Option JVal × Option PyErr :=
  match db.root with
  | none => (none, some (.valueError uninitAccessMsg))
  | some (.dict _ es) =>
      match dictLookup es k with
      | some v => (some v, none)
      | none => (none, some .keyError)
  | some (.list _ xs) =>
      match k with
      | .int i =>
          match pyIndex xs.length i with
          | some n => (xs.get? n, none)
          | none => (none, some .indexError)
      | .str _ => (none, some (.typeError "list indices must be integers"))
  | some _ => (none, some (.typeError "object is not subscriptable"))

mutual
/-- Python `==` on the values we model, used by `in` on a list. -/
def jvalEq : JVal → JVal → Bool
  | .null, .null => true
  | .bool a, .bool b => a == b
  | .num a, .num b => a == b
  | .str a, .str b => a == b
  | .dict _ es, .dict _ fs => entriesEq es fs
  | .list _ xs, .list _ ys => elemsEq xs ys
  | _, _ => false

/-- Pointwise `==` on ordered dict entries. -/
def entriesEq : List (PyKey × JVal) → List (PyKey × JVal) → Bool
  | [], [] => true
  | (k1, v1) :: es, (k2, v2) :: fs => k1 == k2 && jvalEq v1 v2 && entriesEq es fs
  | _, _ => false

/-- Pointwise `==` on list elements. -/
def elemsEq : List JVal → List JVal → Bool
  | [], [] => true
  | x :: xs, y :: ys => jvalEq x y && elemsEq xs ys
  | _, _ => false
end

/-- The value a bare key compares equal to under Python `==`. -/
def keyAsVal : PyKey → JVal
  | .str s => .str s
  | .int n => .num n

/-- `Database.__contains__` (src/jawadb.py:181-184): `false` when
uninitialized (no error, no side effect), otherwise `item in container`
— key membership for a dict, element membership for a list. -/
def dbContains (db : DB) (k : PyKey) : Bool :=
  match db.root with
  | none => false
  | some (.dict _ es) => (dictLookup es k).isSome
  | some (.list _ xs) => xs.any (fun v => jvalEq v (keyAsVal k))
  | some _ => false

/-- `_JsonDict.get` (src/jawadb.py:72-80): `value = super().get(key, default)`;
if the key is absent, wrap the default, store it via `self[key] = wrapped`
(which goes through `_JsonDict.__setitem__`, wrapping once more and calling
`_mark_modified`), and return the wrapped value; if present, return the stored
value with no side effect. Result: (returned value, new entries, marked). -/
def jsonDictGet (es : List (PyKey × JVal)) (k : PyKey) (d : JVal) :
    JVal × List (PyKey × JVal) × Bool :=
  match dictLookup es k with
  | some v => (v, es, false)
  | none =>
      let wrapped := wrapValue d
      (wrapped, dictSet es k (wrapValue wrapped), true)

/-- `Database.get` (src/jawadb.py:170-179): `_ensure_dict`, then the inner
`_JsonDict.get`, then a re-check `if key not in self._inner_container` that
would wrap and insert again — dead in practice, because the inner `get` has
already inserted the key; kept here as in the source.
Result: (returned value, database after the call, raised error). -/
def dbGet (db : DB) (k : PyKey) (d : JVal) : Option JVal × DB × Option PyErr :=
  let p := dbEnsureDict db
  match p.2 with
  | some err => (none, p.1, some err)
  | none =>
    match p.1.root with
    | some (.dict true es) =>
        let r := jsonDictGet es k d
        let db2 : DB := ⟨some (.dict true r.2.1), p.1.modified || r.2.2⟩
        match dictLookup r.2.1 k with
        | some _ => (some r.1, db2, none)
        | none =>
            let w := wrapValue r.1
            (some w, ⟨some (.dict true (dictSet r.2.1 k (wrapValue w))), true⟩, none)
    | _ => (none, p.1, some (.typeError "unreachable: ensured dict"))

/-- `Database.append` (src/jawadb.py:162-164): `_ensure_list`, then
`_JsonList.append` (src/jawadb.py:95-97), which appends the wrapped value and
marks the database modified. -/
def dbAppend (db : DB) (v : JVal) : DB × Option PyErr :=
  let p := dbEnsureList db
  match p.2 with
  | some err => (p.1, some err)
  | none =>
    match p.1.root with
    | some (.list true xs) =>
        (⟨some (.list true (xs ++ [wrapValue v])), true⟩, none)
    | _ => (p.1, some (.typeError "unreachable: ensured list"))

/-- One step of navigation from a container: subscripting by a dict key or a
(non-negative) list position. -/
inductive Step where
  | key (k : PyKey)
  | idx (n : Nat)

/-- Pure navigation `container[k1][k2]...`: `__getitem__` is not overridden by
`_JsonDict`/`_JsonList`, so it returns the stored child unchanged, tracked or
not, with no wrapping and no marking. -/
def getAt : JVal → List Step → Option JVal
  | v, [] => some v
  | .dict _ es, .key k :: p => match dictLookup es k with
      | some c => getAt c p
      | none => none
  | .list _ xs, .idx i :: p => match xs.get? i with
      | some c => getAt c p
      | none => none
  | _, _ => none

/-- `.append(v)` invoked on the container reached by path `p`: a tracked list
(`_JsonList`) appends `wrapValue v` and notifies the database; a raw list
appends `v` unwrapped and notifies nobody. Returns the rewritten tree and
whether `_mark_modified` was called. -/
def appendAt : JVal → List Step → JVal → Option (JVal × Bool)
  | .list true xs, [], w => some (.list true (xs ++ [wrapValue w]), true)
  | .list false xs, [], w => some (.list false (xs ++ [w]), false)
  | _, [], _ => none
  | .dict tr es, .key k :: p, w =>
      match dictLookup es k with
      | some c =>
          match appendAt c p w with
          | some r => some (.dict tr (dictSet es k r.1), r.2)
          | none => none
      | none => none
  | .list tr xs, .idx i :: p, w =>
      match xs.get? i with
      | some c =>
          match appendAt c p w with
          | some r => some (.list tr (xs.set i r.1), r.2)
          | none => none
      | none => none
  | _, _ :: _, _ => none

/-- The statement `doc[s1][s2]....append(v)` at the `Database` level:
`Database.__getitem__` fails on an uninitialized root; otherwise the
navigation and the append act inside the tree, and the dirty flag is set
exactly when the reached container notified the database. -/
def docMutateAppend (db : DB) (p : List Step) (v : JVal) : DB × Option PyErr :=
  match db.root with
  | none => (db, some (.valueError uninitAccessMsg))
  | some r =>
      match appendAt r p v with
      | some r2 => (⟨some r2.1, db.modified || r2.2⟩, none)
      | none => (db, some .keyError)

/-- Indentation: `n` spaces. -/
def spaces (n : Nat) : String := String.mk (List.replicate n (Char.ofNat 32))

/-- JSON string escaping as performed by `json.dump` for the characters we
model (quote, backslash, newline). -/
def escChar (c : Char) : String :=
  if c = Char.ofNat 34 then "\\\"" else
  if c = Char.ofNat 92 then "\\\\" else
  if c = Char.ofNat 10 then "\\n" else String.mk [c]

/-- A JSON string literal. -/
def jstr (s : String) : String :=
  "\"" ++ String.join (s.data.map escChar) ++ "\""

/-- `json.dump` renders a non-string dict key by stringifying and quoting. -/
def serKey : PyKey → String
  | .str s => jstr s
  | .int n => "\"" ++ toString n ++ "\""

mutual
/-- `json.dump(value, f, indent=2)` at current indentation `ind`: the exact
text Python produces with 2-space indentation (empty containers render inline,
non-empty ones one item per line). -/
def serVal : JVal → Nat → String
  | .null, _ => "null"
  | .bool true, _ => "true"
  | .bool false, _ => "false"
  | .num n, _ => toString n
  | .str s, _ => jstr s
  | .dict _ [], _ => "\x7b\x7d"
  | .dict _ (e :: es), ind =>
      "\x7b\n" ++ serEntries (e :: es) (ind + 2) ++ "\n" ++ spaces ind ++ "\x7d"
  | .list _ [], _ => "[]"
  | .list _ (x :: xs), ind =>
      "[\n" ++ serElems (x :: xs) (ind + 2) ++ "\n" ++ spaces ind ++ "]"

/-- Dict entries, one per line at indentation `ind`, comma-separated. -/
def serEntries : List (PyKey × JVal) → Nat → String
  | [], _ => ""
  | [(k, v)], ind => spaces ind ++ serKey k ++ ": " ++ serVal v ind
  | (k, v) :: e :: es, ind =>
      spaces ind ++ serKey k ++ ": " ++ serVal v ind ++ ",\n" ++
        serEntries (e :: es) ind

/-- List elements, one per line at indentation `ind`, comma-separated. -/
def serElems : List JVal → Nat → String
  | [], _ => ""
  | [x], ind => spaces ind ++ serVal x ind
  | x :: y :: xs, ind =>
      spaces ind ++ serVal x ind ++ ",\n" ++ serElems (y :: xs) ind
end

/-- The point of `Database.save` at which an injected failure occurs: opening
the temp file, writing/serializing into it, or the atomic `os.replace`. -/
inductive SaveStep where
  | openTemp
  | writeTemp
  | replace
deriving DecidableEq

/-- The filesystem as `save` sees it: the content at `path` and at
`path + ".tmp"` (`none` = file absent). -/
structure FS where
  target : Option String
  temp : Option String

/-- Result of a `save` call: the database and filesystem afterwards, the
propagated exception if one was raised, and whether `path` was (re)written. -/
structure SaveOut where
  db : DB
  fs : FS
  err : Option String
  wrote : Bool

/-- `Database.save` (src/jawadb.py:195-204) with fault injection: a no-op
unless `_modified` and the container exists; otherwise write the serialized
tree to `<path>.tmp`, `os.replace` it over `path`, and only then clear
`_modified`. A failure at `openTemp` leaves both files as they were; at
`writeTemp` it leaves a partial (here: empty) temp file; at `replace` it
leaves the fully written temp file; in every failure case `path` and the
in-memory state are untouched and the exception propagates unchanged. -/
def save (db : DB) (fs : FS) (failAt : Option (SaveStep × String)) : SaveOut :=
  match db.root with
  | none => ⟨db, fs, none, false⟩
  | some r =>
      if db.modified then
        match failAt with
        | some (.openTemp, msg) => ⟨db, fs, some msg, false⟩
        | some (.writeTemp, msg) => ⟨db, ⟨fs.target, some ""⟩, some msg, false⟩
        | some (.replace, msg) => ⟨db, ⟨fs.target, some (serVal r 0)⟩, some msg, false⟩
        | none => ⟨⟨db.root, false⟩, ⟨some (serVal r 0), none⟩, none, true⟩
      else ⟨db, fs, none, false⟩

theorem wrapValue_idem (v : JVal) : wrapValue (wrapValue v) = wrapValue v := by
  cases v with
  | dict tr es => cases tr <;> rfl
  | list tr xs => cases tr <;> rfl
  | null => rfl
  | bool b => rfl
  | num n => rfl
  | str s => rfl

theorem dictLookup_dictSet_self (es : List (PyKey × JVal)) (k : PyKey) (v : JVal) :
    dictLookup (dictSet es k v) k = some v := by
  induction es with
  | nil => simp [dictSet, dictLookup]
  | cons e es ih =>
    obtain ⟨k2, v2⟩ := e
    by_cases h : k2 = k
    · subst h; simp [dictSet, dictLookup]
    · simp [dictSet, dictLookup, h, ih]

/-- Claim C1: the claim says every mapping/sequence reachable from the root is
tracked, so a two-level-deep mutation such as `doc["a"]["b"].append(1)` sets
the dirty flag. The code violates this: `_JsonDict.__init__` copies its
entries without wrapping nested containers, so loading
`\x7b"a": \x7b"b": []\x7d\x7d` leaves the inner dict and list raw; the deep
append then rewrites the tree (the raw objects are aliased into it) but never
calls `_mark_modified`, the dirty flag stays `false`, and a following `save()`
does not write. -/
theorem C1_nested_untracked :
    dbLoad (some (.dict false [(.str "a", .dict false [(.str "b", .list false [])])]))
      = ⟨some (.dict true [(.str "a", .dict false [(.str "b", .list false [])])]), false⟩ ∧
    getAt (.dict true [(.str "a", .dict false [(.str "b", .list false [])])])
        [.key (.str "a")]
      = some (.dict false [(.str "b", .list false [])]) ∧
    docMutateAppend
        ⟨some (.dict true [(.str "a", .dict false [(.str "b", .list false [])])]), false⟩
        [.key (.str "a"), .key (.str "b")] (.num 1)
      = (⟨some (.dict true
            [(.str "a", .dict false [(.str "b", .list false [.num 1])])]), false⟩, none) ∧
    (save ⟨some (.dict true
            [(.str "a", .dict false [(.str "b", .list false [.num 1])])]), false⟩
        ⟨some "old", none⟩ none).wrote = false :=
  ⟨rfl, rfl, rfl, rfl⟩

/-- Claim C2: the claim says `doc.set(key, value)` on an Uninitialized-root
database first initializes the root as a mapping (via the matching `ensure_*`
call) and stores the value. The code violates this: `Database.__setitem__`
delegates straight to `self._inner_container[key] = value` without
`_ensure_dict`, so on a database opened on a non-existent path it raises
`TypeError` and stores nothing. -/
theorem C2_set_uninitialized_raises :
    dbLoad none = ⟨none, false⟩ ∧
    dbSetItem ⟨none, false⟩ (.str "a") (.num 1)
      = (⟨none, false⟩, some (.typeError noneSetMsg)) :=
  ⟨rfl, rfl⟩

/-- Claim C9: on a database whose root is Uninitialized, `doc[key]` raises
`ValueError` ("Could not access uninitialized database") without
materializing a root, while `key in doc` returns `false` without raising. -/
theorem C9_uninitialized_access (k : PyKey) (m : Bool) :
    dbGetItem ⟨none, m⟩ k = (none, some (.valueError uninitAccessMsg)) ∧
    dbContains ⟨none, m⟩ k = false :=
  ⟨rfl, rfl⟩

/-- Claim C9, instantiated at a concrete key. -/
theorem C9_uninitialized_access_witness :
    dbGetItem ⟨none, false⟩ (.str "a") = (none, some (.valueError uninitAccessMsg)) ∧
    dbContains ⟨none, false⟩ (.str "a") = false :=
  C9_uninitialized_access (.str "a") false

/-- Claim C10: loading an array-rooted file sets the dirty flag exactly when
the array has at least one nested dict/list element (the `_JsonList.__init__`
loop re-assigns those elements through the tracked `__setitem__`), while
loading an object-rooted file, an array of scalars only, or no file at all
leaves the flag `false`. -/
theorem C10_load_dirty (xs : List JVal) (es : List (PyKey × JVal)) :
    (dbLoad (some (.list false xs))).modified = xs.any isContainer ∧
    (∀ x, x ∈ xs → isContainer x = true →
      (dbLoad (some (.list false xs))).modified = true) ∧
    (xs.all (fun x => !isContainer x) = true →
      (dbLoad (some (.list false xs))).modified = false) ∧
    (dbLoad (some (.dict false es))).modified = false ∧
    (dbLoad none).modified = false := by
  refine ⟨rfl, ?_, ?_, rfl, rfl⟩
  · intro x hx hc
    show listInitMarks xs = true
    simp only [listInitMarks, List.any_eq_true]
    exact ⟨x, hx, hc⟩
  · intro h
    show listInitMarks xs = false
    simp only [listInitMarks, List.any_eq_false]
    intro x hx
    have hx2 := List.all_eq_true.mp h x hx
    simpa using hx2

/-- Claim C10, instantiated: an array with one nested object is dirty after
load, an array of scalars is not. -/
theorem C10_load_dirty_witness :
    (dbLoad (some (.list false [.num 0, .dict false []]))).modified = true :=
  (C10_load_dirty [.num 0, .dict false []] []).2.1 (.dict false []) (by simp) rfl

/-- Claim C3: on a mapping-rooted database, `get(key, default)` with an
absent key wraps the default, inserts the wrapped default under the key,
marks the database dirty and returns the wrapped value; with a present key it
returns the stored value and changes nothing. The final conjunct is the
default-materialization scenario: `doc.get("list", [])` followed by
`.append(1)` on the returned (tracked) container and `save()` persists
`"list": [1]`. -/
theorem C3_get_default_materializes
    (es : List (PyKey × JVal)) (m : Bool) (k : PyKey) (d : JVal) :
    (dictLookup es k = none →
      dbGet ⟨some (.dict true es), m⟩ k d
        = (some (wrapValue d),
           ⟨some (.dict true (dictSet es k (wrapValue d))), true⟩, none)) ∧
    (∀ v, dictLookup es k = some v →
      dbGet ⟨some (.dict true es), m⟩ k d
        = (some v, ⟨some (.dict true es), m⟩, none)) ∧
    (let s1 := dbGet ⟨some (.dict true []), false⟩ (.str "list") (.list false [])
     let s2 := docMutateAppend s1.2.1 [.key (.str "list")] (.num 1)
     let s3 := save s2.1 ⟨none, none⟩ none
     s1.1 = some (.list true []) ∧ s2.1.modified = true ∧
       s3.fs.target = some "\x7b\n  \"list\": [\n    1\n  ]\n\x7d") := by
  refine ⟨?_, ?_, ?_⟩
  · intro h
    simp [dbGet, dbEnsureDict, jsonDictGet, h, dictLookup_dictSet_self, wrapValue_idem]
  · intro v h
    simp [dbGet, dbEnsureDict, jsonDictGet, h]
  · exact ⟨rfl, rfl, rfl⟩

/-- Claim C3, instantiated: getting an absent key with a scalar default
inserts it, marks dirty and returns it. -/
theorem C3_get_default_materializes_witness :
    dbGet ⟨some (.dict true []), false⟩ (.str "x") (.num 5)
      = (some (.num 5), ⟨some (.dict true [(.str "x", .num 5)]), true⟩, none) :=
  (C3_get_default_materializes [] false (.str "x") (.num 5)).1 rfl

/-- Claim C4: when a save attempt (on a dirty, initialized database) fails at
any of its three steps — opening the temp file, writing into it, or the
atomic replace — the content at `path` is unchanged, the database object
(tree and dirty flag) is unchanged, the error propagates unchanged, and no
write of `path` is recorded, so a retry remains possible. -/
theorem C4_save_failure_atomic (db : DB) (fs : FS) (step : SaveStep)
    (msg : String) (r : JVal) (hr : db.root = some r) (hm : db.modified = true) :
    (save db fs (some (step, msg))).err = some msg ∧
    (save db fs (some (step, msg))).db = db ∧
    (save db fs (some (step, msg))).fs.target = fs.target ∧
    (save db fs (some (step, msg))).wrote = false := by
  obtain ⟨root, modified⟩ := db
  simp only at hr hm
  subst hr
  subst hm
  cases step <;> simp [save]

/-- Claim C4, instantiated at a failing replace step. -/
theorem C4_save_failure_atomic_witness :
    (save ⟨some .null, true⟩ ⟨some "old", none⟩ (some (.replace, "boom"))).err
        = some "boom" ∧
    (save ⟨some .null, true⟩ ⟨some "old", none⟩ (some (.replace, "boom"))).db
        = ⟨some .null, true⟩ ∧
    (save ⟨some .null, true⟩ ⟨some "old", none⟩ (some (.replace, "boom"))).fs.target
        = some "old" ∧
    (save ⟨some .null, true⟩ ⟨some "old", none⟩ (some (.replace, "boom"))).wrote
        = false :=
  C4_save_failure_atomic ⟨some .null, true⟩ ⟨some "old", none⟩ .replace "boom"
    .null rfl rfl

/-- Claim C5: `save()` is a no-op (no filesystem write, no state change)
whenever the dirty flag is false or the root is Uninitialized; and after any
(non-failing) `save()`, a second `save()` with no mutation in between is a
no-op, so at most the first of two consecutive saves writes. -/
theorem C5_save_noop_idempotent (db : DB) (fs fs2 : FS) :
    ((db.modified = false ∨ db.root = none) →
      save db fs none = ⟨db, fs, none, false⟩) ∧
    save (save db fs none).db fs2 none
      = ⟨(save db fs none).db, fs2, none, false⟩ := by
  obtain ⟨root, modified⟩ := db
  constructor
  · intro h
    rcases h with h | h
    · simp only at h
      subst h
      cases root <;> simp [save]
    · simp only at h
      subst h
      simp [save]
  · cases root with
    | none => simp [save]
    | some r => cases modified <;> simp [save]

/-- Claim C5, instantiated: a clean database saves as a no-op. -/
theorem C5_save_noop_idempotent_witness :
    save ⟨some .null, false⟩ ⟨none, none⟩ none
      = ⟨⟨some .null, false⟩, ⟨none, none⟩, none, false⟩ :=
  (C5_save_noop_idempotent ⟨some .null, false⟩ ⟨none, none⟩ ⟨none, none⟩).1
    (Or.inl rfl)

/-- Claim C6 counterexample: the claim says `ensure_mapping()` on an
Uninitialized root materializes the container AND marks the database dirty;
in the code `_ensure_dict` materializes the empty `_JsonDict` but never calls
`_mark_modified`, so the dirty flag stays `false`. -/
theorem C6_ensure_no_dirty_cex :
    dbEnsureDict ⟨none, false⟩ = (⟨some (.dict true []), false⟩, none) ∧
    ¬ (dbEnsureDict ⟨none, false⟩).1.modified = true := by
  exact ⟨rfl, by decide⟩

/-- Claim C6 as amended: on an Uninitialized root, `ensure_mapping` /
`ensure_sequence` materializes an empty tracked container of the requested
kind leaving the dirty flag unchanged (it does NOT mark dirty); on a root of
the other kind it fails with the kind-mismatch `TypeError` leaving the
database unchanged; on a root of the requested kind it is a no-op. -/
theorem C6_ensure_kinds (db : DB) :
    (db.root = none →
      dbEnsureDict db = (⟨some (.dict true []), db.modified⟩, none) ∧
      dbEnsureList db = (⟨some (.list true []), db.modified⟩, none)) ∧
    (∀ xs, db.root = some (.list true xs) →
      dbEnsureDict db = (db, some (.typeError listAsDictMsg)) ∧
      dbEnsureList db = (db, none)) ∧
    (∀ es, db.root = some (.dict true es) →
      dbEnsureDict db = (db, none) ∧
      dbEnsureList db = (db, some (.typeError dictAsListMsg))) := by
  obtain ⟨root, modified⟩ := db
  refine ⟨?_, ?_, ?_⟩
  · intro h
    simp only at h
    subst h
    exact ⟨rfl, rfl⟩
  · intro xs h
    simp only at h
    subst h
    exact ⟨rfl, rfl⟩
  · intro es h
    simp only at h
    subst h
    exact ⟨rfl, rfl⟩

/-- Claim C6 (amended), instantiated on an Uninitialized root. -/
theorem C6_ensure_kinds_witness :
    dbEnsureDict ⟨none, true⟩ = (⟨some (.dict true []), true⟩, none) ∧
    dbEnsureList ⟨none, true⟩ = (⟨some (.list true []), true⟩, none) :=
  (C6_ensure_kinds ⟨none, true⟩).1 rfl

/-- Claim C7: on a mapping-rooted database, `append()` fails with the
kind-mismatch `TypeError` and leaves the database unchanged; symmetrically,
on a sequence-rooted database, the mapping-style `get()` fails with the
complementary kind-mismatch `TypeError` and leaves the database unchanged. -/
theorem C7_kind_guard (db : DB) :
    (∀ es v, db.root = some (.dict true es) →
      dbAppend db v = (db, some (.typeError dictAsListMsg))) ∧
    (∀ xs k d, db.root = some (.list true xs) →
      dbGet db k d = (none, db, some (.typeError listAsDictMsg))) := by
  obtain ⟨root, modified⟩ := db
  constructor
  · intro es v h
    simp only at h
    subst h
    rfl
  · intro xs k d h
    simp only at h
    subst h
    rfl

/-- Claim C7, instantiated on a mapping-rooted database. -/
theorem C7_kind_guard_witness :
    dbAppend ⟨some (.dict true []), false⟩ .null
      = (⟨some (.dict true []), false⟩, some (.typeError dictAsListMsg)) :=
  (C7_kind_guard ⟨some (.dict true []), false⟩).1 [] .null rfl

/-- Claim C8 counterexample: the claim says a non-string key used in a
mapping `set` fails with a KeyTypeError; in the code `_JsonDict.__setitem__`
performs no key validation, so `doc[1] = 2` on a mapping-rooted database
succeeds (no error), stores the entry and marks dirty. -/
theorem C8_no_key_validation_cex :
    dbSetItem ⟨some (.dict true []), false⟩ (.int 1) (.num 2)
      = (⟨some (.dict true [(.int 1, .num 2)]), true⟩, none) ∧
    (dbSetItem ⟨some (.dict true []), false⟩ (.int 1) (.num 2)).2 = none :=
  ⟨rfl, rfl⟩

/-- Claim C8 as amended: mapping operations perform no string-key validation;
`set` with a non-string (integer) key raises nothing, stores the wrapped
value under that key, and marks the database dirty. -/
theorem C8_nonstring_key_accepted (n : Int) (v : JVal)
    (es : List (PyKey × JVal)) (m : Bool) :
    dbSetItem ⟨some (.dict true es), m⟩ (.int n) v
      = (⟨some (.dict true (dictSet es (.int n) (wrapValue v))), true⟩, none) :=
  rfl

/-- Claim C8 (amended), instantiated. -/
theorem C8_nonstring_key_accepted_witness :
    dbSetItem ⟨some (.dict true [(.str "a", .null)]), true⟩ (.int 7) (.str "y")
      = (⟨some (.dict true [(.str "a", .null), (.int 7, .str "y")]), true⟩, none) :=
  C8_nonstring_key_accepted 7 (.str "y") [(.str "a", .null)] true
